import Mathlib

/-!
Shallow embedding of `src/evaluation/grn_models/gene_expression_prediction.py`.

The module fits, per target gene, a regression model predicting the target's
expression from the expression of its network-declared regulators, and
aggregates per-target fit statistics into a result table.

Modelling conventions:
* pandas DataFrames (the network table `grn`) are a column-key list plus a
  list of rows (each row a list of string cells); column lookup on a missing
  key raises `KeyError`, mirrored by `Except.error (PyErr.keyError k)`.
* Python column keys may be any hashable value; the code can pass a boolean
  where a key is expected, so keys are `PyKey` (string or boolean).
* AnnData holds the feature index `var`, the number of observations `nObs`,
  the default matrix `Xcols` (column-major: one list of length `nObs` per
  feature) and named alternate `layers`.
* numpy float arrays are embedded as `Rat` lists; none of the verified
  properties depend on floating-point rounding.
* the sklearn estimator is abstract: after an in-place `fit(X, y)` the code
  only calls `score(X, y)` and `predict(X)` on the same training pair, so it
  is modelled as two deterministic functions of `(X, y)`.
* `joblib.Parallel(n_jobs)(delayed(f)(args) for ...)` evaluates the delayed
  tasks on up to `n_jobs` workers and returns their results in dispatch
  order, re-raising the first exception; its result is independent of
  `n_jobs`, which is exactly how `Parallel` is defined below.
* `print`/`tqdm` progress output (the `verbose` flag) has no effect on
  results and is not modelled, except where the code passes the boolean
  itself in a column-key position.
-/

namespace GEP

/-- A pandas column key: the code uses string keys, but one call site passes
a boolean positionally where a key is expected, so keys are a sum. -/
inductive PyKey where
  | str (s : String)
  | bool (b : Bool)
deriving DecidableEq, Repr

/-- The Python exceptions the embedded code can raise: `KeyError` from a
missing DataFrame column, `ValueError` from the explicit `raise` in
`_select_data`. -/
inductive PyErr where
  | keyError (k : PyKey)
  | valueError (msg : String)
deriving DecidableEq, Repr

/-- The network table `grn`: a pandas DataFrame with named columns and
string cells (regulator / target gene identifiers, category labels). -/
structure Grn where
  cols : List PyKey
  rows : List (List String)
deriving DecidableEq, Repr

/-- Position of column key `k` in a column list (leftmost match). -/
def colIdx (cols : List PyKey) (k : PyKey) : Option Nat :=
  match cols with
  | [] => none
  | c :: cs => if c == k then some 0 else (colIdx cs k).map (· + 1)

/-- `grn[k]`: the column of cells under key `k`; `KeyError` if absent. -/
def Grn.getCol (g : Grn) (k : PyKey) : Except PyErr (List String) :=
  match colIdx g.cols k with
  | none => Except.error (PyErr.keyError k)
  | some i => Except.ok (g.rows.map (fun r => r.getD i ""))

/-- `grn[grn[k] == v]`: boolean-mask row filtering on column `k`; the inner
column access raises `KeyError` if `k` is absent. -/
def Grn.filterEq (g : Grn) (k : PyKey) (v : String) : Except PyErr Grn :=
  match colIdx g.cols k with
  | none => Except.error (PyErr.keyError k)
  | some i => Except.ok { cols := g.cols, rows := g.rows.filter (fun r => r.getD i "" == v) }

/-- The expression dataset (`adata`): feature index, observation count,
default matrix and named alternate layers, matrices stored column-major
(one expression vector of length `nObs` per feature). -/
structure AnnData where
  var : List String
  nObs : Nat
  Xcols : List (List Rat)
  layers : List (String × List (List Rat))
deriving DecidableEq, Repr

/-- A dense 2-D numpy array of shape `(nrows, cols.length)`, stored
column-major. -/
structure Mat where
  nrows : Nat
  cols : List (List Rat)
deriving DecidableEq, Repr

/-- Helper for `np.where(pred)[0]` over a string index: the positions, in
order, whose entry satisfies the predicate, offset by the accumulator. -/
def idxWhereAux (p : String → Bool) (i : Nat) : List String → List Nat
  | [] => []
  | a :: l => if p a then i :: idxWhereAux p (i + 1) l else idxWhereAux p (i + 1) l

/-- `np.where(pred over index)[0]`. -/
def idxWhere (p : String → Bool) (l : List String) : List Nat :=
  idxWhereAux p 0 l

/-- Column selection `m[:, idx]` on a column-major matrix. -/
def selectCols (m : List (List Rat)) (idx : List Nat) : List (List Rat) :=
  idx.map (fun i => m.getD i [])

/-- Lookup of a named layer in `adata.layers`. -/
def layerLookup (layers : List (String × List (List Rat))) (l : String) :
    Option (List (List Rat)) :=
  match layers with
  | [] => none
  | (n, m) :: rest => if n == l then some m else layerLookup rest l

/-- Row-major `np.ndarray.flatten()` of an `(nObs, k)` array stored
column-major, as applied to the sliced target matrix `y`. -/
def flattenRowMajor (nObs : Nat) (cols : List (List Rat)) : List Rat :=
  (List.range nObs).flatMap (fun r => cols.map (fun c => c.getD r 0))

/-- The `ValueError` raised by `_select_data` for a missing layer; this is
the error the specification names `LayerNotFoundError`. -/
def LayerNotFoundError (l : String) : PyErr :=
  PyErr.valueError ("Layer " ++ l ++ " not found in adata.")

/-- Embedding of `_select_data` (lines 20-50): filter the network to the
edges of one target, take the raw `source_key` column of the filtered edges
as `regulators`, resolve regulator and target names against `adata.var`,
slice the requested matrix (default or named layer), densify, and flatten
`y`.  Always called with `return_regulators=True` by `_fit_model`, so the
triple-returning variant is embedded. -/
def _select_data (grn : Grn) (adata : AnnData) (target : String)
    (source_key target_key : PyKey) (layer : Option String) :
    Except PyErr (Mat × List Rat × List String) :=
  match grn.filterEq target_key target with
  | Except.error e => Except.error e
  | Except.ok sub_grn =>
    match sub_grn.getCol source_key with
    | Except.error e => Except.error e
    | Except.ok regulators =>
      let regulator_idx := idxWhere (fun s => decide (s ∈ regulators)) adata.var
      let target_idx := idxWhere (fun s => s == target) adata.var
      match layer with
      | some l =>
        match layerLookup adata.layers l with
        | none => Except.error (LayerNotFoundError l)
        | some m =>
          Except.ok ({ nrows := adata.nObs, cols := selectCols m regulator_idx },
                     flattenRowMajor adata.nObs (selectCols m target_idx),
                     regulators)
      | none =>
        Except.ok ({ nrows := adata.nObs, cols := selectCols adata.Xcols regulator_idx },
                   flattenRowMajor adata.nObs (selectCols adata.Xcols target_idx),
                   regulators)

/-- The caller-supplied sklearn estimator, reduced to the capabilities the
code uses after an in-place fit on `(X, y)`: `score X y` is
`model.fit(X, y); model.score(X, y)` and `predict X y` is
`model.fit(X, y); model.predict(X)`; both are deterministic functions of
the training pair. -/
structure Estimator where
  score : Mat → List Rat → Rat
  predict : Mat → List Rat → List Rat

/-- `np.mean` of a vector. -/
def npMean (l : List Rat) : Rat :=
  l.sum / (l.length : Rat)

/-- One row of the per-target fit statistics dict built by `_fit_model`
(line 73). -/
structure FitResult where
  target : String
  r2 : Rat
  mse : Rat
  n_cells : Nat
  regulators : List String
deriving DecidableEq, Repr

/-- Embedding of `_fit_model` (lines 53-73): select `(X, y, regulators)`,
read `(n_cells, n_regulators)` off `X.shape`, skip (return `None`) below the
`min_regulators` threshold, otherwise fit and score the estimator and build
the result dict.  The `verbose` parameter only gates a progress print and is
dropped. -/
def _fit_model (grn : Grn) (adata : AnnData) (target : String) (model : Estimator)
    (min_regulators : Nat) (source_key target_key : PyKey) (layer : Option String) :
    Except PyErr (Option FitResult) :=
  match _select_data grn adata target source_key target_key layer with
  | Except.error e => Except.error e
  | Except.ok (X, y, regulators) =>
    let n_cells := X.nrows
    let n_regulators := X.cols.length
    if n_regulators < min_regulators then
      Except.ok none
    else
      let r2 := model.score X y
      let preds := model.predict X y
      let mse := npMean ((preds.zip y).map (fun p => (p.1 - p.2) ^ 2))
      Except.ok (some { target := target, r2 := r2, mse := mse,
                        n_cells := n_cells, regulators := regulators })

/-- Sequential effectful map: the first `Except.error` aborts the whole
traversal. -/
def mapExcept (f : α → Except ε β) : List α → Except ε (List β)
  | [] => Except.ok []
  | a :: l =>
    match f a with
    | Except.error e => Except.error e
    | Except.ok b =>
      match mapExcept f l with
      | Except.error e => Except.error e
      | Except.ok bs => Except.ok (b :: bs)

/-- Embedding of `joblib.Parallel(n_jobs=n)(tasks)`: the delayed tasks run
on up to `n_jobs` workers, results are collected in dispatch order and the
first raised exception propagates, so the outcome does not depend on
`n_jobs`. -/
def Parallel (n_jobs : Nat) (tasks : List (Unit → Except PyErr α)) :
    Except PyErr (List α) :=
  let _ := n_jobs
  mapExcept (fun t => t ()) tasks

/-- Helper for `pandas.Series.unique`: keep the first occurrence of each
value, in order of first appearance. -/
def pdUniqueAux (seen : List String) : List String → List String
  | [] => []
  | a :: l => if a ∈ seen then pdUniqueAux seen l else a :: pdUniqueAux (a :: seen) l

/-- `pandas.Series.unique`: first occurrences in order. -/
def pdUnique (l : List String) : List String :=
  pdUniqueAux [] l

/-- One row of the final result table of `_compute_gene_expression_prediction`,
after the derived `n_regulators` column has been appended. -/
structure ResultRow where
  target : String
  r2 : Rat
  mse : Rat
  n_cells : Nat
  regulators : List String
  n_regulators : Nat
deriving DecidableEq, Repr

/-- Line 124: extend a fit-result row with the derived column
`n_regulators = len(regulators)`. -/
def addNRegulators (fr : FitResult) : ResultRow :=
  { target := fr.target, r2 := fr.r2, mse := fr.mse, n_cells := fr.n_cells,
    regulators := fr.regulators, n_regulators := fr.regulators.length }

/-- Embedding of `_compute_gene_expression_prediction` (lines 76-126):
enumerate the distinct targets of the `target_key` column, dispatch one
`_fit_model` task per target through `Parallel`, drop the `None` (skipped)
results, and append the derived `n_regulators` column.

The final `match` on the collected list reflects lines 123-124 exactly:
`pd.DataFrame([])` of an empty result list has no columns at all, so
`results["regulators"]` raises `KeyError("regulators")`; when the list is
non-empty every dict carries the `"regulators"` key and the column access
succeeds. -/
def _compute_gene_expression_prediction (grn : Grn) (adata : AnnData)
    (model : Estimator) (min_regulators : Nat) (source_key target_key : PyKey)
    (layer : Option String) (n_jobs : Nat) : Except PyErr (List ResultRow) :=
  match grn.getCol target_key with
  | Except.error e => Except.error e
  | Except.ok tcol =>
    let targets := pdUnique tcol
    match Parallel n_jobs (targets.map (fun t => fun _ =>
        _fit_model grn adata t model min_regulators source_key target_key layer)) with
    | Except.error e => Except.error e
    | Except.ok results0 =>
      let results := results0.filterMap id
      match results with
      | [] => Except.error (PyErr.keyError (PyKey.str "regulators"))
      | _ => Except.ok (results.map addNRegulators)

/-- The MuData container as the public entry point uses it: the network
table stored under `grn_key`, the expression data under `data_key`, and the
auxiliary `uns` mapping.  Key resolution of `grn_key`/`data_key` themselves
is not exercised by any verified property and is taken as already done. -/
structure MuData where
  grnTable : Grn
  rnaData : AnnData
  uns : List (String × List FitResult)
deriving Repr

/-- Embedding of the public entry point `compute_gene_expression_prediction`
(lines 129-190): optional celltype row filter, target enumeration from the
hardcoded `"target"` column, then per-target fitting.  The Python call site
on line 179 passes `(grn, adata, target, model, min_regulators, verbose)`
positionally, so `verbose` is bound to `_fit_model`'s `source_key` parameter
(hence the `PyKey.bool verbose` argument below) while `target_key` and
`layer` keep their defaults `"gene"` and `None`.  The collected results are
written to `uns["gene_expression_prediction"]` when `inplace`, otherwise
returned; no `n_regulators` column is appended on this path. -/
def compute_gene_expression_prediction (mdata : MuData) (celltype : Option String)
    (model : Estimator) (min_regulators : Nat) (n_jobs : Nat) (verbose : Bool)
    (inplace : Bool) : Except PyErr (MuData × Option (List FitResult)) :=
  match (match celltype with
         | none => Except.ok mdata.grnTable
         | some c => mdata.grnTable.filterEq (PyKey.str "celltype") c) with
  | Except.error e => Except.error e
  | Except.ok grn =>
    let adata := mdata.rnaData
    match grn.getCol (PyKey.str "target") with
    | Except.error e => Except.error e
    | Except.ok tcol =>
      let targets := pdUnique tcol
      match Parallel n_jobs (targets.map (fun t => fun _ =>
          _fit_model grn adata t model min_regulators (PyKey.bool verbose)
            (PyKey.str "gene") none)) with
      | Except.error e => Except.error e
      | Except.ok results0 =>
        let results := results0.filterMap id
        if inplace then
          Except.ok ({ mdata with
                       uns := ("gene_expression_prediction", results) :: mdata.uns },
                     none)
        else
          Except.ok (mdata, some results)

/-! ### Concrete fixtures

Small networks and a two-sample, two-feature dataset used to evaluate the
embedded functions at concrete inputs. -/

/-- The default `source_key` column key, `"tf"`. -/
def kTF : PyKey := PyKey.str "tf"

/-- The default `target_key` column key, `"gene"`. -/
def kGene : PyKey := PyKey.str "gene"

/-- A trivial conforming estimator: zero score, zero predictions. -/
def est0 : Estimator :=
  { score := fun _ _ => 0, predict := fun X _ => List.replicate X.nrows 0 }

/-- A dataset with features `A`, `G` over two samples. -/
def adA : AnnData :=
  { var := ["A", "G"], nObs := 2, Xcols := [[1, 0], [0, 1]], layers := [] }

/-- One edge `A → G`. -/
def grn1 : Grn := { cols := [kTF, kGene], rows := [["A", "G"]] }

/-- A network table with the usual columns and zero rows. -/
def grnEmpty : Grn := { cols := [kTF, kGene], rows := [] }

/-- Edges `A → G` and `GHOST → G`, where `GHOST` is absent from the dataset
feature index. -/
def grnC2 : Grn := { cols := [kTF, kGene], rows := [["A", "G"], ["GHOST", "G"]] }

/-- Edges `A → G` and `B → H`, where `B` is absent from the dataset feature
index, so target `H` has no resolvable regulator. -/
def grnC3 : Grn := { cols := [kTF, kGene], rows := [["A", "G"], ["B", "H"]] }

/-- The edge `A → G` listed twice. -/
def grnC5 : Grn := { cols := [kTF, kGene], rows := [["A", "G"], ["A", "G"]] }

/-- One edge `A → G` in a table that also carries the `"target"` column the
public entry point enumerates. -/
def grnC9 : Grn :=
  { cols := [kTF, kGene, PyKey.str "target"], rows := [["A", "G", "G"]] }

/-- A zero-row network table that carries the `"target"` column. -/
def grnEmptyT : Grn := { cols := [kTF, kGene, PyKey.str "target"], rows := [] }

/-- MuData holding `grnC9` and the two-sample dataset. -/
def mdataC9 : MuData := { grnTable := grnC9, rnaData := adA, uns := [] }

/-- MuData holding the zero-row network `grnEmptyT`. -/
def mdataE : MuData := { grnTable := grnEmptyT, rnaData := adA, uns := [] }

/-- Default inhabitant used by list head projections on result rows. -/
instance : Inhabited ResultRow :=
  ⟨{ target := "", r2 := 0, mse := 0, n_cells := 0, regulators := [],
     n_regulators := 0 }⟩

/-- Default inhabitant used by projections on fit-result outcomes. -/
instance : Inhabited FitResult :=
  ⟨{ target := "", r2 := 0, mse := 0, n_cells := 0, regulators := [] }⟩

/-- The fit result of a non-skipped, non-failing `_fit_model` outcome. -/
def outFit (r : Except PyErr (Option FitResult)) : FitResult :=
  match r with
  | Except.ok (some fr) => fr
  | _ => default

/-- Rows of a successful orchestrator run (empty on error). -/
def outRows (r : Except PyErr (List ResultRow)) : List ResultRow :=
  match r with
  | Except.ok rows => rows
  | Except.error _ => []

/-- The single result row produced for target `G` on `grnC3` (regulator
`A`, two cells); its non-numeric fields are pinned by `decide` facts in the
witnesses below. -/
def rowG : ResultRow :=
  (outRows (_compute_gene_expression_prediction grnC3 adA est0 1 kTF kGene
    none 1)).headI

/-- The single result row produced for target `G` on `grnC2`: the
unresolvable `GHOST` still appears in `regulators` and is counted by
`n_regulators`. -/
def rowC2 : ResultRow :=
  (outRows (_compute_gene_expression_prediction grnC2 adA est0 1 kTF kGene
    none 1)).headI

/-- The single result row produced for target `G` on `grnC9` by the core
orchestrator (the public entry point fails on the same data). -/
def rowC9 : ResultRow :=
  (outRows (_compute_gene_expression_prediction grnC9 adA est0 1 kTF kGene
    none 1)).headI

/-- The fit result recorded for target `G` on `grn1`. -/
def fitG : FitResult :=
  outFit (_fit_model grn1 adA "G" est0 1 kTF kGene none)

/-- The regulator feature matrix selected for target `G` on `grnC2`. -/
def XC2 : Mat := { nrows := 2, cols := [[1, 0]] }

/-- The (empty) regulator feature matrix selected for target `H` on
`grnC3`. -/
def XH : Mat := { nrows := 2, cols := [] }

/-- Projection of a `_select_data` outcome onto its regulator sequence. -/
def selRegs (r : Except PyErr (Mat × List Rat × List String)) : List String :=
  match r with
  | Except.ok (_, _, regs) => regs
  | Except.error _ => []

/-- Decidable equality of `Except` outcomes, so concrete runs of the
embedded functions can be checked by `decide`. -/
instance {ε α : Type} [DecidableEq ε] [DecidableEq α] : DecidableEq (Except ε α)
  | Except.error e, Except.error f =>
    if h : e = f then isTrue (by rw [h])
    else isFalse (by intro hc; cases hc; exact h rfl)
  | Except.error _, Except.ok _ => isFalse (fun hc => Except.noConfusion hc)
  | Except.ok _, Except.error _ => isFalse (fun hc => Except.noConfusion hc)
  | Except.ok a, Except.ok b =>
    if h : a = b then isTrue (by rw [h])
    else isFalse (by intro hc; cases hc; exact h rfl)

/-! ### Helper lemmas -/

/-- A key present in the column list has a position. -/
lemma colIdx_of_mem {cols : List PyKey} {k : PyKey} (h : k ∈ cols) :
    ∃ i, colIdx cols k = some i := by
  induction cols with
  | nil => simp at h
  | cons c cs ih =>
    by_cases hc : c == k
    · exact ⟨0, by simp [colIdx, hc]⟩
    · rcases List.mem_cons.mp h with h1 | h2
      · exact absurd (beq_iff_eq.mpr h1.symm) hc
      · obtain ⟨i, hi⟩ := ih h2
        exact ⟨i + 1, by simp [colIdx, hc, hi]⟩

/-- A key absent from the column list has no position. -/
lemma colIdx_of_not_mem {cols : List PyKey} {k : PyKey} (h : k ∉ cols) :
    colIdx cols k = none := by
  induction cols with
  | nil => rfl
  | cons c cs ih =>
    have hc : ¬ (c == k) := by
      intro hck
      exact h (by simp [beq_iff_eq.mp hck])
    simp only [colIdx, if_neg hc]
    rw [ih (fun hm => h (List.mem_cons_of_mem _ hm))]
    rfl

/-- A layer name different from every stored layer name does not resolve. -/
lemma layerLookup_eq_none {layers : List (String × List (List Rat))} {L : String}
    (h : ∀ p ∈ layers, p.1 ≠ L) : layerLookup layers L = none := by
  induction layers with
  | nil => rfl
  | cons p rest ih =>
    obtain ⟨n, m⟩ := p
    have hn : ¬ (n == L) := by
      intro hnl
      exact h (n, m) (List.mem_cons_self _ _) (beq_iff_eq.mp hnl)
    simp only [layerLookup, if_neg hn]
    exact ih (fun q hq => h q (List.mem_cons_of_mem _ hq))

/-- `idxWhereAux` returns one index per satisfying entry. -/
lemma idxWhereAux_length (p : String → Bool) (l : List String) :
    ∀ i, (idxWhereAux p i l).length = (l.filter p).length := by
  induction l with
  | nil => intro i; rfl
  | cons a t ih =>
    intro i
    by_cases ha : p a
    · simp [idxWhereAux, ha, List.filter_cons, ih]
    · simp [idxWhereAux, ha, List.filter_cons, ih]

/-- `idxWhere` returns one index per satisfying entry of the feature
index. -/
lemma idxWhere_length (p : String → Bool) (l : List String) :
    (idxWhere p l).length = (l.filter p).length :=
  idxWhereAux_length p l 0

/-- `pandas.Series.unique` of a non-empty column is non-empty. -/
lemma pdUnique_ne_nil {l : List String} (h : l ≠ []) : pdUnique l ≠ [] := by
  cases l with
  | nil => exact absurd rfl h
  | cons a t => simp [pdUnique, pdUniqueAux]

/-- A first failing task aborts `mapExcept`. -/
lemma mapExcept_cons_error {f : α → Except ε β} {a : α} {l : List α} {e : ε}
    (h : f a = Except.error e) : mapExcept f (a :: l) = Except.error e := by
  simp [mapExcept, h]

/-- Every element of a successful `mapExcept` result is produced by some
input element. -/
lemma mapExcept_ok_mem {f : α → Except ε β} :
    ∀ {l : List α} {bs : List β}, mapExcept f l = Except.ok bs →
      ∀ b ∈ bs, ∃ a ∈ l, f a = Except.ok b := by
  intro l
  induction l with
  | nil =>
    intro bs h b hb
    simp only [mapExcept] at h
    cases h
    simp at hb
  | cons a t ih =>
    intro bs h b hb
    simp only [mapExcept] at h
    cases hfa : f a with
    | error e => rw [hfa] at h; cases h
    | ok b0 =>
      rw [hfa] at h
      cases hrest : mapExcept f t with
      | error e => rw [hrest] at h; cases h
      | ok bs0 =>
        rw [hrest] at h
        cases h
        rcases List.mem_cons.mp hb with hb1 | hb2
        · exact ⟨a, List.mem_cons_self _ _, by rw [hfa, hb1]⟩
        · obtain ⟨a', ha', hfa'⟩ := ih hrest b hb2
          exact ⟨a', List.mem_cons_of_mem _ ha', hfa'⟩

/-- Shape of a successful data selection: `X` has one row per sample of the
dataset and one column per feature-index entry that belongs to the declared
regulator sequence. -/
lemma select_ok_shape {grn : Grn} {adata : AnnData} {t : String} {sk tk : PyKey}
    {layer : Option String} {X : Mat} {y : List Rat} {regs : List String}
    (h : _select_data grn adata t sk tk layer = Except.ok (X, y, regs)) :
    X.nrows = adata.nObs ∧
    X.cols.length = (adata.var.filter (fun v => decide (v ∈ regs))).length := by
  unfold _select_data at h
  split at h
  · exact Except.noConfusion h
  · split at h
    · exact Except.noConfusion h
    · split at h
      · split at h
        · exact Except.noConfusion h
        · simp only [Except.ok.injEq, Prod.mk.injEq] at h
          obtain ⟨hX, _, hr⟩ := h
          subst hX
          subst hr
          exact ⟨rfl, by simp [selectCols, idxWhere_length]⟩
      · simp only [Except.ok.injEq, Prod.mk.injEq] at h
        obtain ⟨hX, _, hr⟩ := h
        subst hX
        subst hr
        exact ⟨rfl, by simp [selectCols, idxWhere_length]⟩

/-- A target whose resolvable regulator count is below the threshold is
skipped: `_fit_model` returns the `None` sentinel, not an error. -/
lemma fit_skip {grn : Grn} {adata : AnnData} {t : String} {model : Estimator}
    {minr : Nat} {sk tk : PyKey} {layer : Option String} {X : Mat} {y : List Rat}
    {regs : List String}
    (hsel : _select_data grn adata t sk tk layer = Except.ok (X, y, regs))
    (hlt : X.cols.length < minr) :
    _fit_model grn adata t model minr sk tk layer = Except.ok none := by
  simp [_fit_model, hsel, hlt]

/-- A successful, non-skipped fit records the requested target identifier,
the declared regulator sequence of the selection, and a cell count equal to
the dataset's sample count. -/
lemma fit_ok_some {grn : Grn} {adata : AnnData} {t : String} {model : Estimator}
    {minr : Nat} {sk tk : PyKey} {layer : Option String} {fr : FitResult}
    (h : _fit_model grn adata t model minr sk tk layer = Except.ok (some fr)) :
    fr.target = t ∧ fr.n_cells = adata.nObs := by
  unfold _fit_model at h
  cases hsel : _select_data grn adata t sk tk layer with
  | error e => rw [hsel] at h; exact Except.noConfusion h
  | ok trip =>
    obtain ⟨X, y, regs⟩ := trip
    rw [hsel] at h
    simp only at h
    split at h
    · simp at h
    · simp only [Except.ok.injEq, Option.some.injEq] at h
      subst h
      exact ⟨rfl, (select_ok_shape hsel).1⟩

/-- The regulator sequence recorded in a fit result is exactly the one the
data selection produced. -/
lemma fit_ok_some_regulators {grn : Grn} {adata : AnnData} {t : String}
    {model : Estimator} {minr : Nat} {sk tk : PyKey} {layer : Option String}
    {X : Mat} {y : List Rat} {regs : List String} {fr : FitResult}
    (hsel : _select_data grn adata t sk tk layer = Except.ok (X, y, regs))
    (h : _fit_model grn adata t model minr sk tk layer = Except.ok (some fr)) :
    fr.regulators = regs := by
  unfold _fit_model at h
  rw [hsel] at h
  dsimp only at h
  split at h
  · simp at h
  · simp only [Except.ok.injEq, Option.some.injEq] at h
    subst h
    rfl

/-- A failing selection propagates through `_fit_model`. -/
lemma fit_error {grn : Grn} {adata : AnnData} {t : String} {model : Estimator}
    {minr : Nat} {sk tk : PyKey} {layer : Option String} {e : PyErr}
    (h : _select_data grn adata t sk tk layer = Except.error e) :
    _fit_model grn adata t model minr sk tk layer = Except.error e := by
  simp [_fit_model, h]

/-- Every row of a successful orchestrator run comes from a non-skipped
`_fit_model` outcome for that row's target, extended with the derived
`n_regulators` column. -/
lemma compute_ok_mem {grn : Grn} {adata : AnnData} {model : Estimator}
    {minr : Nat} {sk tk : PyKey} {layer : Option String} {n_jobs : Nat}
    {out : List ResultRow}
    (h : _compute_gene_expression_prediction grn adata model minr sk tk layer
        n_jobs = Except.ok out) :
    ∀ r ∈ out, ∃ fr, _fit_model grn adata r.target model minr sk tk layer =
        Except.ok (some fr) ∧ r = addNRegulators fr := by
  intro r hr
  unfold _compute_gene_expression_prediction at h
  cases hcol : Grn.getCol grn tk with
  | error e => rw [hcol] at h; exact Except.noConfusion h
  | ok tcol =>
    rw [hcol] at h
    dsimp only at h
    cases hpar : Parallel n_jobs ((pdUnique tcol).map (fun t => fun _ =>
        _fit_model grn adata t model minr sk tk layer)) with
    | error e => rw [hpar] at h; exact Except.noConfusion h
    | ok results0 =>
      rw [hpar] at h
      dsimp only at h
      split at h
      · exact Except.noConfusion h
      · simp only [Except.ok.injEq] at h
        subst h
        obtain ⟨fr, hfr, hrw⟩ := List.mem_map.mp hr
        obtain ⟨o, ho, hid⟩ := List.mem_filterMap.mp hfr
        simp only [id] at hid
        subst hid
        have hpar' : mapExcept (fun task => task ())
            ((pdUnique tcol).map (fun t => fun _ =>
              _fit_model grn adata t model minr sk tk layer)) =
            Except.ok results0 := hpar
        obtain ⟨task, htask, hrun⟩ := mapExcept_ok_mem hpar' (some fr) ho
        obtain ⟨t, _, htsk⟩ := List.mem_map.mp htask
        have hft : _fit_model grn adata t model minr sk tk layer =
            Except.ok (some fr) := by rw [← hrun, ← htsk]
        subst hrw
        refine ⟨fr, ?_, rfl⟩
        have htarg : fr.target = t := (fit_ok_some hft).1
        simpa [addNRegulators, htarg] using hft

/-- A successful column access implies the key resolves to a position. -/
lemma getCol_ok_colIdx {g : Grn} {k : PyKey} {tcol : List String}
    (h : g.getCol k = Except.ok tcol) : ∃ i, colIdx g.cols k = some i := by
  unfold Grn.getCol at h
  cases hc : colIdx g.cols k with
  | none => rw [hc] at h; exact Except.noConfusion h
  | some i => exact ⟨i, rfl⟩

/-- When both edge columns resolve but the requested layer does not exist,
`_select_data` raises the layer-not-found `ValueError`. -/
lemma select_layer_missing {grn : Grn} {adata : AnnData} {t : String}
    {sk tk : PyKey} {L : String} {si ti : Nat}
    (hti : colIdx grn.cols tk = some ti) (hsi : colIdx grn.cols sk = some si)
    (hL : layerLookup adata.layers L = none) :
    _select_data grn adata t sk tk (some L) =
      Except.error (LayerNotFoundError L) := by
  simp [_select_data, Grn.filterEq, Grn.getCol, hti, hsi, hL]

/-- An error in the first dispatched fit task aborts the whole orchestrator
batch with that error: no partial result table is produced. -/
lemma compute_first_target_error {grn : Grn} {adata : AnnData} {model : Estimator}
    {minr : Nat} {sk tk : PyKey} {layer : Option String} {n_jobs : Nat}
    {tcol : List String} {t : String} {ts : List String} {e : PyErr}
    (hcol : Grn.getCol grn tk = Except.ok tcol)
    (hts : pdUnique tcol = t :: ts)
    (hfit : _fit_model grn adata t model minr sk tk layer = Except.error e) :
    _compute_gene_expression_prediction grn adata model minr sk tk layer n_jobs =
      Except.error e := by
  unfold _compute_gene_expression_prediction
  rw [hcol]
  dsimp only
  rw [hts]
  have hp : Parallel n_jobs ((t :: ts).map (fun t' => fun _ =>
      _fit_model grn adata t' model minr sk tk layer)) = Except.error e := by
    show mapExcept (fun task => task ())
        ((t :: ts).map (fun t' => fun _ =>
          _fit_model grn adata t' model minr sk tk layer)) = Except.error e
    rw [List.map_cons]
    exact mapExcept_cons_error hfit
  rw [hp]

/-- The public-entry analogue of `compute_first_target_error` (default
celltype): an error in the first dispatched fit task aborts the batch. -/
lemma public_first_target_error {mdata : MuData} {model : Estimator}
    {minr n_jobs : Nat} {verbose inplace : Bool} {tcol : List String}
    {t : String} {ts : List String} {e : PyErr}
    (hcol : mdata.grnTable.getCol (PyKey.str "target") = Except.ok tcol)
    (hts : pdUnique tcol = t :: ts)
    (hfit : _fit_model mdata.grnTable mdata.rnaData t model minr
        (PyKey.bool verbose) (PyKey.str "gene") none = Except.error e) :
    compute_gene_expression_prediction mdata none model minr n_jobs verbose
      inplace = Except.error e := by
  unfold compute_gene_expression_prediction
  dsimp only
  rw [hcol]
  dsimp only
  rw [hts]
  have hp : Parallel n_jobs ((t :: ts).map (fun t' => fun _ =>
      _fit_model mdata.grnTable mdata.rnaData t' model minr (PyKey.bool verbose)
        (PyKey.str "gene") none)) = Except.error e := by
    show mapExcept (fun task => task ())
        ((t :: ts).map (fun t' => fun _ =>
          _fit_model mdata.grnTable mdata.rnaData t' model minr
            (PyKey.bool verbose) (PyKey.str "gene") none)) = Except.error e
    rw [List.map_cons]
    exact mapExcept_cons_error hfit
  rw [hp]

/-! ### Claim theorems -/

/-- C1: the claim says a zero-row network table yields an empty result table
and no error; in fact `_compute_gene_expression_prediction` on a zero-row
network (with any column set containing the target key) collects zero fit
results, so `pd.DataFrame([])` has no columns and the `n_regulators` append
on line 124 raises `KeyError("regulators")` instead of returning an empty
table. -/
theorem C1_empty_network_raises_key_error (cols : List PyKey) (adata : AnnData)
    (model : Estimator) (minr : Nat) (sk tk : PyKey) (layer : Option String)
    (n_jobs ti : Nat) (hti : colIdx cols tk = some ti) :
    _compute_gene_expression_prediction { cols := cols, rows := [] } adata model
      minr sk tk layer n_jobs =
      Except.error (PyErr.keyError (PyKey.str "regulators")) := by
  unfold _compute_gene_expression_prediction
  have hcol : Grn.getCol { cols := cols, rows := [] } tk = Except.ok [] := by
    simp [Grn.getCol, hti]
  rw [hcol]
  rfl

/-- C1 witness: the concrete zero-row network with columns `tf`, `gene`
raises `KeyError("regulators")`. -/
theorem C1_empty_network_raises_key_error_witness :
    colIdx [kTF, kGene] kGene = some 1 ∧
    _compute_gene_expression_prediction { cols := [kTF, kGene], rows := [] } adA
      est0 1 kTF kGene none 1 =
      Except.error (PyErr.keyError (PyKey.str "regulators")) :=
  ⟨by decide, C1_empty_network_raises_key_error [kTF, kGene] adA est0 1 kTF kGene
    none 1 1 (by decide)⟩

/-- C2 (amended): unresolvable regulator identifiers are dropped without
error when building `X` — its column count equals the number of feature
index entries belonging to the declared regulator sequence — but the output
column `n_regulators` equals the length of the full declared regulator
sequence (unresolvable identifiers and duplicates included), not the size
of the resolvable subset. -/
theorem C2_regulator_resolution_amended (grn : Grn) (adata : AnnData) (t : String)
    (sk tk : PyKey) (layer : Option String) (X : Mat) (y : List Rat)
    (regs : List String) (model : Estimator) (minr n_jobs : Nat)
    (out : List ResultRow) :
    (_select_data grn adata t sk tk layer = Except.ok (X, y, regs) →
      X.cols.length = (adata.var.filter (fun v => decide (v ∈ regs))).length) ∧
    (_compute_gene_expression_prediction grn adata model minr sk tk layer n_jobs =
        Except.ok out →
      ∀ r ∈ out, r.n_regulators = r.regulators.length) := by
  constructor
  · intro hsel
    exact (select_ok_shape hsel).2
  · intro hout r hr
    obtain ⟨fr, _, hrw⟩ := compute_ok_mem hout r hr
    subst hrw
    rfl

/-- C2 witness: on `grnC2` (edges `A → G`, `GHOST → G`) the selection for
`G` builds a one-column `X` while the declared sequence has two entries, and
the output row's `n_regulators` equals the declared-sequence length. -/
theorem C2_regulator_resolution_amended_witness :
    XC2.cols.length =
      (adA.var.filter (fun v => decide (v ∈ (["A", "GHOST"] : List String)))).length ∧
    rowC2.n_regulators = rowC2.regulators.length :=
  ⟨(C2_regulator_resolution_amended grnC2 adA "G" kTF kGene none XC2 [0, 1]
      ["A", "GHOST"] est0 1 1 [rowC2]).1 (by decide),
   (C2_regulator_resolution_amended grnC2 adA "G" kTF kGene none XC2 [0, 1]
      ["A", "GHOST"] est0 1 1 [rowC2]).2 rfl rowC2 (List.mem_cons_self rowC2 [])⟩

/-- C2 counterexample: the claim that `n_regulators` counts only the
resolvable subset is false on `grnC2`: the output row reports
`n_regulators = 2` while only one declared regulator resolves against the
feature index. -/
theorem C2_unresolvable_counted_counterexample :
    _compute_gene_expression_prediction grnC2 adA est0 1 kTF kGene none 1 =
      Except.ok [rowC2] ∧
    rowC2.regulators = ["A", "GHOST"] ∧
    rowC2.n_regulators = 2 ∧
    (adA.var.filter (fun v => decide (v ∈ rowC2.regulators))).length = 1 ∧
    rowC2.n_regulators ≠
      (adA.var.filter (fun v => decide (v ∈ rowC2.regulators))).length :=
  ⟨rfl, by decide, by decide, by decide, by decide⟩

/-- C3: a target whose resolvable regulator count is strictly below
`min_regulators` makes `_fit_model` return the `None` sentinel (not an
error), and no row for that target appears in any successful output table,
for any `n_jobs`. -/
theorem C3_skip_below_min_regulators (grn : Grn) (adata : AnnData)
    (model : Estimator) (minr : Nat) (sk tk : PyKey) (layer : Option String)
    (t : String) (X : Mat) (y : List Rat) (regs : List String) (n_jobs : Nat)
    (out : List ResultRow)
    (hsel : _select_data grn adata t sk tk layer = Except.ok (X, y, regs))
    (hlt : X.cols.length < minr)
    (hout : _compute_gene_expression_prediction grn adata model minr sk tk layer
        n_jobs = Except.ok out) :
    _fit_model grn adata t model minr sk tk layer = Except.ok none ∧
    ∀ r ∈ out, r.target ≠ t := by
  have hskip : _fit_model grn adata t model minr sk tk layer = Except.ok none :=
    fit_skip hsel hlt
  refine ⟨hskip, ?_⟩
  intro r hr hteq
  obtain ⟨fr, hft, _⟩ := compute_ok_mem hout r hr
  rw [hteq, hskip] at hft
  simp at hft

/-- C3 witness: on `grnC3`, target `H` (declared regulator `B`, not in the
feature index) is skipped and produces no row, while target `G` still
yields its row. -/
theorem C3_skip_below_min_regulators_witness :
    _select_data grnC3 adA "H" kTF kGene none = Except.ok (XH, [], ["B"]) ∧
    XH.cols.length < 1 ∧
    _fit_model grnC3 adA "H" est0 1 kTF kGene none = Except.ok none ∧
    rowG.target ≠ "H" :=
  ⟨by decide, by decide,
   (C3_skip_below_min_regulators grnC3 adA est0 1 kTF kGene none "H" XH [] ["B"]
      1 [rowG] (by decide) (by decide) rfl).1,
   (C3_skip_below_min_regulators grnC3 adA est0 1 kTF kGene none "H" XH [] ["B"]
      1 [rowG] (by decide) (by decide) rfl).2 rowG (List.mem_cons_self rowG [])⟩

/-- C4: a named alternate layer absent from the dataset makes the data
selector fail with the layer-not-found `ValueError`, and (for a network with
at least one target and resolvable edge columns) this failure aborts the
whole orchestrator batch: the run produces the error, never a partial
table. -/
theorem C4_missing_layer_aborts_batch (grn : Grn) (adata : AnnData)
    (model : Estimator) (minr : Nat) (sk tk : PyKey) (L : String) (n_jobs : Nat)
    (tcol : List String)
    (hsk : sk ∈ grn.cols)
    (hcol : grn.getCol tk = Except.ok tcol)
    (hne : tcol ≠ [])
    (hL : ∀ p ∈ adata.layers, p.1 ≠ L) :
    (∀ t, _select_data grn adata t sk tk (some L) =
        Except.error (LayerNotFoundError L)) ∧
    _compute_gene_expression_prediction grn adata model minr sk tk (some L)
      n_jobs = Except.error (LayerNotFoundError L) := by
  obtain ⟨ti, hti⟩ := getCol_ok_colIdx hcol
  obtain ⟨si, hsi⟩ := colIdx_of_mem hsk
  obtain ⟨t, ts, hts⟩ := List.exists_cons_of_ne_nil (pdUnique_ne_nil hne)
  refine ⟨fun u => select_layer_missing hti hsi (layerLookup_eq_none hL), ?_⟩
  exact compute_first_target_error hcol hts
    (fit_error (select_layer_missing hti hsi (layerLookup_eq_none hL)))

/-- C4 witness: requesting layer `counts` on `adA` (which has no layers)
aborts the run on `grn1` with the layer-not-found `ValueError`. -/
theorem C4_missing_layer_aborts_batch_witness :
    kTF ∈ grn1.cols ∧ grn1.getCol kGene = Except.ok ["G"] ∧
    (["G"] : List String) ≠ [] ∧ (∀ p ∈ adA.layers, p.1 ≠ "counts") ∧
    _select_data grn1 adA "G" kTF kGene (some "counts") =
      Except.error (LayerNotFoundError "counts") ∧
    _compute_gene_expression_prediction grn1 adA est0 1 kTF kGene (some "counts")
      1 = Except.error (LayerNotFoundError "counts") :=
  ⟨by decide, by decide, by decide, by decide,
   (C4_missing_layer_aborts_batch grn1 adA est0 1 kTF kGene "counts" 1 ["G"]
     (by decide) (by decide) (by decide) (by decide)).1 "G",
   (C4_missing_layer_aborts_batch grn1 adA est0 1 kTF kGene "counts" 1 ["G"]
     (by decide) (by decide) (by decide) (by decide)).2⟩

/-- C5 (amended): the regulators sequence produced by the data selector —
and recorded unchanged in the target's fit result — is the `source_key`
cell of every edge whose `target_key` cell equals the target, in edge order
and with multiplicity: duplicate source values are retained, not
deduplicated. -/
theorem C5_regulators_sequence_amended (grn : Grn) (adata : AnnData) (t : String)
    (sk tk : PyKey) (layer : Option String) (X : Mat) (y : List Rat)
    (regs : List String) (si ti : Nat)
    (hsi : colIdx grn.cols sk = some si) (hti : colIdx grn.cols tk = some ti)
    (hsel : _select_data grn adata t sk tk layer = Except.ok (X, y, regs)) :
    regs = (grn.rows.filter (fun r => r.getD ti "" == t)).map
        (fun r => r.getD si "") ∧
    ∀ (model : Estimator) (minr : Nat) (fr : FitResult),
      _fit_model grn adata t model minr sk tk layer = Except.ok (some fr) →
      fr.regulators = regs := by
  refine ⟨?_, fun model minr fr hf => fit_ok_some_regulators hsel hf⟩
  simp only [_select_data, Grn.filterEq, Grn.getCol, hti, hsi] at hsel
  split at hsel
  · split at hsel
    · exact Except.noConfusion hsel
    · simp only [Except.ok.injEq, Prod.mk.injEq] at hsel
      exact hsel.2.2.symm
  · simp only [Except.ok.injEq, Prod.mk.injEq] at hsel
    exact hsel.2.2.symm

/-- C5 witness: on `grn1` (single edge `A → G`), the recorded sequence for
`G` is exactly the source cells of the matching edges. -/
theorem C5_regulators_sequence_amended_witness :
    colIdx grn1.cols kTF = some 0 ∧ colIdx grn1.cols kGene = some 1 ∧
    (["A"] : List String) = (grn1.rows.filter (fun r => r.getD 1 "" == "G")).map
        (fun r => r.getD 0 "") ∧
    fitG.regulators = ["A"] :=
  ⟨by decide, by decide,
   (C5_regulators_sequence_amended grn1 adA "G" kTF kGene none
     { nrows := 2, cols := [[1, 0]] } [0, 1] ["A"] 0 1 (by decide) (by decide)
     (by decide)).1,
   (C5_regulators_sequence_amended grn1 adA "G" kTF kGene none
     { nrows := 2, cols := [[1, 0]] } [0, 1] ["A"] 0 1 (by decide) (by decide)
     (by decide)).2 est0 1 fitG rfl⟩

/-- C5 counterexample: the claim that each regulator identifier appears at
most once is false: on `grnC5`, where the edge `A → G` is listed twice, the
recorded sequence for `G` is `["A", "A"]`. -/
theorem C5_duplicate_regulators_counterexample :
    selRegs (_select_data grnC5 adA "G" kTF kGene none) = ["A", "A"] ∧
    ¬ (selRegs (_select_data grnC5 adA "G" kTF kGene none)).Nodup := by
  constructor
  · decide
  · decide

/-- C6 (amended): the core orchestrator collects the non-skipped fit
results, appends the derived `n_regulators` column and returns the table to
its caller; the separate in-place entry point
`compute_gene_expression_prediction` writes its (column-less on this path)
collected results under `uns["gene_expression_prediction"]` without any
`n_regulators` column, and it only reaches the write when the target
enumeration is empty (on non-empty networks it fails first, see C10). -/
theorem C6_result_table_amended (grn : Grn) (adata : AnnData) (model : Estimator)
    (minr : Nat) (sk tk : PyKey) (layer : Option String) (n_jobs : Nat)
    (out : List ResultRow) (mdata : MuData) (est : Estimator) (minr2 nj : Nat)
    (v : Bool) (tcol : List String) :
    (_compute_gene_expression_prediction grn adata model minr sk tk layer n_jobs =
        Except.ok out →
      ∀ r ∈ out, ∃ fr, _fit_model grn adata r.target model minr sk tk layer =
          Except.ok (some fr) ∧ r = addNRegulators fr) ∧
    (mdata.grnTable.getCol (PyKey.str "target") = Except.ok tcol →
      pdUnique tcol = [] →
      compute_gene_expression_prediction mdata none est minr2 nj v true =
        Except.ok ({ mdata with
                     uns := ("gene_expression_prediction", []) :: mdata.uns },
                   none)) := by
  constructor
  · intro hout
    exact compute_ok_mem hout
  · intro hcol hpd
    unfold compute_gene_expression_prediction
    dsimp only
    rw [hcol]
    dsimp only
    rw [hpd]
    rfl

/-- C6 witness: on a zero-row network carrying a `"target"` column, the
in-place entry point writes the empty result list under the reserved key;
on `grnC3` the core orchestrator's row for target `G` extends a fit result
with the derived column. -/
theorem C6_result_table_amended_witness :
    (∃ fr, _fit_model grnC3 adA rowG.target est0 1 kTF kGene none =
        Except.ok (some fr) ∧ rowG = addNRegulators fr) ∧
    compute_gene_expression_prediction mdataE none est0 1 1 true true =
      Except.ok ({ mdataE with
                   uns := ("gene_expression_prediction", []) :: mdataE.uns },
                 none) :=
  ⟨(C6_result_table_amended grnC3 adA est0 1 kTF kGene none 1 [rowG] mdataE est0
      1 1 true []).1 rfl rowG (List.mem_cons_self rowG []),
   (C6_result_table_amended grnC3 adA est0 1 kTF kGene none 1 [rowG] mdataE est0
      1 1 true []).2 (by decide) (by decide)⟩

/-- C6 counterexample: the claim that the result table (with its
`n_regulators` column) is written into the store when operating in-place is
false: on the non-empty network `grnC9`, the in-place invocation raises
`KeyError(True)` (the mis-bound `verbose` flag used as a column key) and
writes nothing. -/
theorem C6_inplace_write_counterexample :
    compute_gene_expression_prediction mdataC9 none est0 1 1 true true =
      Except.error (PyErr.keyError (PyKey.bool true)) :=
  rfl

/-- C7: in every successful orchestrator run, each output row's `n_cells`
equals the dataset's sample count and its `n_regulators` equals the length
of its `regulators` sequence. -/
theorem C7_shape_invariant (grn : Grn) (adata : AnnData) (model : Estimator)
    (minr : Nat) (sk tk : PyKey) (layer : Option String) (n_jobs : Nat)
    (out : List ResultRow)
    (hout : _compute_gene_expression_prediction grn adata model minr sk tk layer
        n_jobs = Except.ok out) :
    ∀ r ∈ out, r.n_cells = adata.nObs ∧ r.n_regulators = r.regulators.length := by
  intro r hr
  obtain ⟨fr, hft, hrw⟩ := compute_ok_mem hout r hr
  subst hrw
  exact ⟨(fit_ok_some hft).2, rfl⟩

/-- C7 witness: the row for target `G` on `grnC3` has `n_cells = 2` (the
sample count of `adA`) and `n_regulators` equal to its regulator-sequence
length. -/
theorem C7_shape_invariant_witness :
    rowG.n_cells = adA.nObs ∧ rowG.n_regulators = rowG.regulators.length :=
  C7_shape_invariant grnC3 adA est0 1 kTF kGene none 1 [rowG] rfl rowG
    (List.mem_cons_self rowG [])

/-- C8: the orchestrator's result is a function of the network, dataset,
estimator, threshold, keys and layer alone: under the embedded joblib
semantics (results gathered in dispatch order, independent of the worker
count), runs with `n_jobs = 1` and `n_jobs = 4` coincide on every input. -/
theorem C8_njobs_determinism (grn : Grn) (adata : AnnData) (model : Estimator)
    (minr : Nat) (sk tk : PyKey) (layer : Option String) :
    _compute_gene_expression_prediction grn adata model minr sk tk layer 1 =
      _compute_gene_expression_prediction grn adata model minr sk tk layer 4 :=
  rfl

/-- C9: the two top-level entry points are not equivalent on the same data:
on `grnC9`/`adA` the core orchestrator (which passes `source_key` and
`target_key` through to the fitter) returns a one-row table for `G`, while
the public entry point (which enumerates the hardcoded `"target"` column
and passes `verbose` positionally in place of `source_key`) raises
`KeyError(True)`. -/
theorem C9_entry_points_inequivalent :
    _compute_gene_expression_prediction grnC9 adA est0 1 kTF kGene none 1 =
      Except.ok [rowC9] ∧
    rowC9.target = "G" ∧ rowC9.n_regulators = 1 ∧
    compute_gene_expression_prediction mdataC9 none est0 1 1 true true =
      Except.error (PyErr.keyError (PyKey.bool true)) :=
  ⟨rfl, by decide, by decide, rfl⟩

/-- C10: in `compute_gene_expression_prediction` the positional fitter call
binds `verbose` to `source_key` (and leaves `target_key` at its default
`"gene"`); consequently, on every network table with at least one row and
no column keyed by the boolean `verbose` value, the call raises a
key-lookup error (`KeyError`) instead of producing a result table. -/
theorem C10_misbound_verbose_key_error (mdata : MuData) (model : Estimator)
    (minr n_jobs : Nat) (verbose : Bool) (inplace : Bool)
    (hrows : mdata.grnTable.rows ≠ [])
    (hnomem : PyKey.bool verbose ∉ mdata.grnTable.cols) :
    ∃ k, compute_gene_expression_prediction mdata none model minr n_jobs verbose
        inplace = Except.error (PyErr.keyError k) := by
  cases hti : colIdx mdata.grnTable.cols (PyKey.str "target") with
  | none =>
    refine ⟨PyKey.str "target", ?_⟩
    unfold compute_gene_expression_prediction
    dsimp only
    have hcol : mdata.grnTable.getCol (PyKey.str "target") =
        Except.error (PyErr.keyError (PyKey.str "target")) := by
      simp [Grn.getCol, hti]
    rw [hcol]
  | some ti =>
    have hcol : mdata.grnTable.getCol (PyKey.str "target") =
        Except.ok (mdata.grnTable.rows.map (fun r => r.getD ti "")) := by
      simp [Grn.getCol, hti]
    have hne : mdata.grnTable.rows.map (fun r => r.getD ti "") ≠ [] := by
      simpa using hrows
    obtain ⟨t, ts, hts⟩ := List.exists_cons_of_ne_nil (pdUnique_ne_nil hne)
    cases hgi : colIdx mdata.grnTable.cols (PyKey.str "gene") with
    | none =>
      refine ⟨PyKey.str "gene", ?_⟩
      apply public_first_target_error hcol hts
      apply fit_error
      simp [_select_data, Grn.filterEq, hgi]
    | some gi =>
      refine ⟨PyKey.bool verbose, ?_⟩
      apply public_first_target_error hcol hts
      apply fit_error
      have hvb : colIdx mdata.grnTable.cols (PyKey.bool verbose) = none :=
        colIdx_of_not_mem hnomem
      simp [_select_data, Grn.filterEq, Grn.getCol, hgi, hvb]

/-- C10 witness: on the one-edge network of `mdataC9` (columns `tf`,
`gene`, `target`; no boolean column key), the public entry point raises a
`KeyError`. -/
theorem C10_misbound_verbose_key_error_witness :
    mdataC9.grnTable.rows ≠ [] ∧ PyKey.bool true ∉ mdataC9.grnTable.cols ∧
    (∃ k, compute_gene_expression_prediction mdataC9 none est0 1 1 true true =
        Except.error (PyErr.keyError k)) :=
  ⟨by decide, by decide,
   C10_misbound_verbose_key_error mdataC9 est0 1 1 true true (by decide)
     (by decide)⟩

end GEP
